import Mathlib

/-!
# Verification of the email outreach campaign core

Shallow embedding of the follow-up scheduling / campaign state machine,
the content-addressed cache, the deduplicator and the enrichment gating
of the `email7` codebase, together with proofs and refutations of the
specification's claims about them.

Timestamps are modelled in whole days (the source schedules with
`Date.setDate(date + days)`); `now : Nat` is the current day.
-/

namespace Email7

/-- Conversation status of an email thread
(`conversation_status` column; values written by the code are
`'pending'`, `'responded'` and `'completed'`). -/
inductive ConvStatus
  | pending
  | responded
  | completed
  deriving DecidableEq, Repr

/-- A row of `email_threads`, restricted to the fields the campaign
logic reads or writes. -/
structure Thread where
  id : Nat
  subject : String
  email_content : String
  sent_at : Option Nat
  response_received : Bool
  conversation_status : ConvStatus
  follow_up_count : Nat
  next_follow_up : Option Nat
  campaign_id : Nat
  company_id : Nat
  created_at : Nat
  updated_at : Nat
  deriving DecidableEq, Repr

/-- `calculateNextFollowUp(followUpCount)` from the cron follow-up
handler (and identically the manual follow-up handler): no next
follow-up once the count reaches 6, otherwise 3 or 4 days out
(random coin) for the first two follow-ups and 7 days from the third
onward. -/
def calculateNextFollowUp (followUpCount : Nat) (coin : Bool) (now : Nat) : Option Nat :=
  if followUpCount ≥ 6 then
    none
  else
    some (now + (if followUpCount ≤ 2 then (if coin then 3 else 4) else 7))

/-- `calculateNextFollowUp(followUpCount?)` from `api/campaigns/index.ts`:
the argument is optional and the guard `!followUpCount` also fires on
`0`, so a missing or zero count yields no next follow-up. -/
def calculateNextFollowUpIndex (followUpCount : Option Nat) (coin : Bool) (now : Nat) :
    Option Nat :=
  match followUpCount with
  | none => none
  | some k =>
    if k = 0 then none
    else if k ≥ 6 then none
    else some (now + (if k ≤ 2 then (if coin then 3 else 4) else 7))

/-- `calculateNextFollowUp()` from `api/campaigns/start.ts` and
`GmailService.calculateNextFollowUp()`: always 3 or 4 days out,
never null, independent of the follow-up count. -/
def calculateNextFollowUpInitial (coin : Bool) (now : Nat) : Nat :=
  now + (if coin then 3 else 4)

/-- `true` when `next_follow_up` is set and has elapsed
(the SQL filter `next_follow_up <= now`, which a NULL never passes). -/
def nfDue (t : Thread) (now : Nat) : Bool :=
  match t.next_follow_up with
  | some v => decide (v ≤ now)
  | none => false

/-- Selection filter of the cron follow-up sweep (`api/cron/follow-ups`):
due, pending, already sent once, fewer than 6 follow-ups.  Note the
cron sweep does not look at `response_received`. -/
def cronSweepGuard (t : Thread) (now : Nat) : Bool :=
  nfDue t now
    && decide (t.conversation_status = ConvStatus.pending)
    && t.sent_at.isSome
    && decide (t.follow_up_count < 6)

/-- Selection filter of `GmailService.processFollowUps`:
no response, pending, due, fewer than 12 follow-ups. -/
def gmailSweepGuard (t : Thread) (now : Nat) : Bool :=
  (!t.response_received)
    && decide (t.conversation_status = ConvStatus.pending)
    && nfDue t now
    && decide (t.follow_up_count < 12)

/-- Guard of the manual follow-up endpoint (`api/campaigns/follow-up`):
pending and fewer than 6 follow-ups; neither `sent_at` nor the due
date is checked. -/
def manualFollowUpGuard (t : Thread) : Bool :=
  decide (t.conversation_status = ConvStatus.pending)
    && decide (t.follow_up_count < 6)

/-- Selection filter of the initial send in `api/campaigns/start.ts`:
pending and never sent. -/
def initialSendGuard (t : Thread) : Bool :=
  decide (t.conversation_status = ConvStatus.pending) && t.sent_at.isNone

/-- Selection filter of `GmailService.startCampaign`: pending only
(`sent_at` is not filtered). -/
def gmailStartGuard (t : Thread) : Bool :=
  decide (t.conversation_status = ConvStatus.pending)

/-- Selection of reply detection (`processIncomingEmail`): the thread
still has `response_received = false`. -/
def replyGuard (t : Thread) : Bool :=
  !t.response_received

/-- Selection of the aging-out cleanup in `api/cron/process-campaigns`:
created more than 42 days ago, still pending, at least 6 follow-ups. -/
def agingGuard (t : Thread) (now : Nat) : Bool :=
  decide (t.created_at + 42 < now)
    && decide (t.conversation_status = ConvStatus.pending)
    && decide (t.follow_up_count ≥ 6)

/-- The successful-send update of a follow-up (all three follow-up
code paths write exactly `follow_up_count`, `next_follow_up` and
`updated_at`). -/
def followUpUpdate (t : Thread) (newCount : Nat) (newNf : Option Nat) (now : Nat) : Thread :=
  { t with
      follow_up_count := newCount
      next_follow_up := newNf
      updated_at := now }

/-- One operation of the system applied to a single thread.  Each
sending label carries `ok` (the mailbox send succeeded; on failure the
code records the error and leaves the row untouched) and `coin` (the
`Math.random()` coin of the scheduling helper). -/
inductive Label
  | initialSend (ok coin : Bool) (now : Nat)
  | gmailStart (ok coin : Bool) (now : Nat)
  | cronSweep (ok coin : Bool) (now : Nat)
  | gmailSweep (ok coin : Bool) (now : Nat)
  | manualFollowUp (ok coin : Bool) (now : Nat)
  | replyDetect
  | agingCleanup (now : Nat)
  deriving DecidableEq, Repr

/-- Effect of each operation on one thread; when the operation's
selection filter (or the send) fails the row is left unchanged. -/
def applyStep (l : Label) (t : Thread) : Thread :=
  match l with
  | .initialSend ok coin now =>
    if ok && initialSendGuard t then
      { t with
          sent_at := some now
          next_follow_up := some (calculateNextFollowUpInitial coin now)
          updated_at := now }
    else t
  | .gmailStart ok coin now =>
    if ok && gmailStartGuard t then
      { t with
          sent_at := some now
          next_follow_up := some (calculateNextFollowUpInitial coin now)
          updated_at := now }
    else t
  | .cronSweep ok coin now =>
    if ok && cronSweepGuard t now then
      followUpUpdate t (t.follow_up_count + 1)
        (calculateNextFollowUp (t.follow_up_count + 1) coin now) now
    else t
  | .gmailSweep ok coin now =>
    if ok && gmailSweepGuard t now then
      followUpUpdate t (t.follow_up_count + 1)
        (if t.follow_up_count < 11 then some (calculateNextFollowUpInitial coin now) else none)
        now
    else t
  | .manualFollowUp ok coin now =>
    if ok && manualFollowUpGuard t then
      followUpUpdate t (t.follow_up_count + 1)
        (calculateNextFollowUp (t.follow_up_count + 1) coin now) now
    else t
  | .replyDetect =>
    if replyGuard t then
      { t with
          response_received := true
          conversation_status := ConvStatus.responded
          next_follow_up := none }
    else t
  | .agingCleanup now =>
    if agingGuard t now then
      { t with
          conversation_status := ConvStatus.completed
          updated_at := now }
    else t

/-- Run a sequence of operations over a thread. -/
def run (t : Thread) (ls : List Label) : Thread :=
  ls.foldl (fun s l => applyStep l s) t

/-- A freshly created thread of a campaign (campaign creation inserts
`conversation_status = 'pending'`, `follow_up_count = 0`; the other
timestamp/flag columns default to null/false). -/
def newThread (tid : Nat) (subj content : String) (campId compId createdAt : Nat) : Thread :=
  { id := tid
    subject := subj
    email_content := content
    sent_at := none
    response_received := false
    conversation_status := ConvStatus.pending
    follow_up_count := 0
    next_follow_up := none
    campaign_id := campId
    company_id := compId
    created_at := createdAt
    updated_at := createdAt }

/-- An append-only `conversations` row. -/
structure Conversation where
  thread_id : Nat
  message_content : String
  sender : String
  deriving DecidableEq, Repr

/-- Full effect of `GmailService.processIncomingEmail` on the matched
thread: one update setting `response_received`, `conversation_status`
and `next_follow_up`, followed by inserting one `conversations` row
with `sender = 'prospect'`.  Returns the updated thread and the
appended rows. -/
def processIncomingEmail (t : Thread) (msg : String) : Thread × List Conversation :=
  if replyGuard t then
    ({ t with
        response_received := true
        conversation_status := ConvStatus.responded
        next_follow_up := none },
     [{ thread_id := t.id, message_content := msg, sender := "prospect" }])
  else (t, [])

/-- The thread is in the terminal responded state. -/
def respondedState (t : Thread) : Prop :=
  t.response_received = true ∧
    t.conversation_status = ConvStatus.responded ∧
    t.next_follow_up = none

instance (t : Thread) : Decidable (respondedState t) := by
  unfold respondedState; infer_instance

/-- `true` when the operation actually sends an automated follow-up
email for this thread (its selection filter passes and the mailbox
send is attempted on a sweep path). -/
def sendsFollowUp (l : Label) (t : Thread) : Bool :=
  match l with
  | .cronSweep _ _ now => cronSweepGuard t now
  | .gmailSweep _ _ now => gmailSweepGuard t now
  | .manualFollowUp _ _ _ => manualFollowUpGuard t
  | _ => false

/- ## Campaign start (initial send) -/

/-- Per-thread inputs of a campaign-start run: whether the company has
a delivery address and whether the mailbox send succeeds. -/
structure SendItem where
  hasEmail : Bool
  sendOk : Bool
  deriving DecidableEq, Repr

/-- Outcome recorded for one thread during campaign start. -/
inductive SendOutcome
  | sentOk
  | noEmail
  | sendFailed
  deriving DecidableEq, Repr

/-- The per-thread branch of the send loop in
`api/campaigns/start.ts`: a missing address records an error and
skips the thread; a failed send records an error; a successful send
counts. -/
def startOutcome (it : SendItem) : SendOutcome :=
  if !it.hasEmail then SendOutcome.noEmail
  else if it.sendOk then SendOutcome.sentOk
  else SendOutcome.sendFailed

/-- Results recorded by the campaign-start loop, one per thread, in
fetch order. -/
def startResults (items : List SendItem) : List SendOutcome :=
  items.map startOutcome

/-- The `sent` counter of the loop. -/
def startSentCount (items : List SendItem) : Nat :=
  (startResults items).countP (· = SendOutcome.sentOk)

/-- Final campaign status written by `api/campaigns/start.ts` after
the loop: `'active'` when at least one send succeeded, else the
campaign stays `'draft'`. -/
def startFinalStatus (items : List SendItem) : String :=
  if startSentCount items > 0 then "active" else "draft"

/-- `GmailService.startCampaign`: the campaign status is set to
`'active'` unconditionally before the send loop and never revised
afterwards; the function returns the final status and the number of
successful sends. -/
def gmailStartCampaign (items : List SendItem) : String × Nat :=
  ("active", startSentCount items)

/- ## Campaign creation -/

/-- The `email_campaigns` row inserted by campaign creation. -/
structure CampaignRow where
  status : String
  company_count : Nat
  deriving DecidableEq, Repr

/-- An `email_threads` row as inserted by campaign creation. -/
structure NewThreadRow where
  company_id : Nat
  conversation_status : ConvStatus
  follow_up_count : Nat
  deriving DecidableEq, Repr

/-- Rows this creation request leaves in the database. -/
structure CreateDB where
  campaign : Option CampaignRow
  threads : List NewThreadRow
  deriving DecidableEq, Repr

/-- Outcome of `api/campaigns/create.ts`. -/
inductive CreateOutcome
  | noEligibleCompanies
  | threadInsertFailed
  | created
  deriving DecidableEq, Repr

/-- `api/campaigns/create.ts` after company resolution: an empty
company-id list fails before any insert; otherwise the campaign row
(`status = 'draft'`) is inserted first and the thread rows (all
`pending`, `follow_up_count = 0`) second.  A failing thread insert
throws, with no compensation deleting the already inserted campaign
row. -/
def createCampaignHandler (companyIds : List Nat) (threadInsertOk : Bool) :
    CreateOutcome × CreateDB :=
  if companyIds.length = 0 then
    (CreateOutcome.noEligibleCompanies, { campaign := none, threads := [] })
  else
    let camp : CampaignRow := { status := "draft", company_count := companyIds.length }
    if threadInsertOk then
      (CreateOutcome.created,
       { campaign := some camp
         threads := companyIds.map fun cid =>
           { company_id := cid
             conversation_status := ConvStatus.pending
             follow_up_count := 0 } })
    else
      (CreateOutcome.threadInsertFailed, { campaign := some camp, threads := [] })

/- ## Cache store (`business_cache`) -/

/-- The cache table keyed by `(business_key, cache_type)` with a
payload (`cached_data`, opaque; modelled as `Nat`) and an expiry day
(`expires_at`).  The table carries a unique key on the pair, so it is
a finite map. -/
def CacheStore : Type := String → String → Option (Nat × Nat)

/-- `getCachedData(cacheKey, cacheType)`: look up by key and type; a
missing row is a miss; a row whose `expires_at` lies strictly in the
past is deleted and a miss is returned; any thrown error is caught and
becomes a miss, leaving the store as it was.  Returns the result
together with the store after the call. -/
def getCachedData (s : CacheStore) (key ctype : String) (now : Nat) (readError : Bool) :
    Option Nat × CacheStore :=
  if readError then (none, s)
  else
    match s key ctype with
    | none => (none, s)
    | some (payload, exp) =>
      if now > exp then
        (none, fun k c => if k = key ∧ c = ctype then none else s k c)
      else (some payload, s)

/-- `setCachedData(cacheKey, data, cacheType, daysToExpire)`: upsert
by `(key, type)` with `expires_at = now + daysToExpire`; a thrown
error is caught and the call is a no-op (caching is optional). -/
def setCachedData (s : CacheStore) (key ctype : String) (payload daysToExpire now : Nat)
    (writeError : Bool) : CacheStore :=
  if writeError then s
  else fun k c => if k = key ∧ c = ctype then some (payload, now + daysToExpire) else s k c

/- ## Deduplicator -/

/-- A business record as returned by a directory scrape. -/
structure Business where
  name : String
  website : Option String
  address : Option String
  deriving DecidableEq, Repr

/-- JavaScript `String.toLowerCase()` restricted to the characters the
proofs use (ASCII). -/
def jsToLower (str : String) : String :=
  ⟨str.data.map Char.toLower⟩

/-- The name normalization of `deduplicateBusinesses`:
`name.toLowerCase().replace(/[^a-z0-9]/g, '')`. -/
def normalizeBusinessName (name : String) : String :=
  ⟨(name.data.map Char.toLower).filter fun ch => ch.isLower || ch.isDigit⟩

/-- The in-memory duplicate key of `deduplicateBusinesses`:
`` `${normalizedName}_${business.website || ''}` ``. -/
def dedupKey (b : Business) : String :=
  normalizeBusinessName b.name ++ "_" ++ b.website.getD ""

/-- `deduplicateBusinesses`: keep the first business for each
duplicate key, skipping records without a name. -/
def deduplicateBusinesses (businesses : List Business) : List Business :=
  (businesses.foldl
    (fun (acc : List String × List Business) b =>
      if b.name = "" then acc
      else
        let key := dedupKey b
        if key ∈ acc.1 then acc
        else (key :: acc.1, acc.2 ++ [b]))
    ([], [])).2

/-- The semantic key hashed by `checkBusinessDuplicate` /
`cacheBusinessData`:
`` `business_${name}_${location}`.toLowerCase() ``.  The SHA-256 hash
applied on top is deterministic, so two inputs collide exactly when
these strings are equal. -/
def duplicateCheckSemanticKey (name location : String) : String :=
  jsToLower ("business_" ++ name ++ "_" ++ location)

/- ## Enrichment gating (`DataEnrichmentService`) -/

/-- A `companies` row restricted to the fields the enrichment batch
reads and writes.  `scraped_content` holds the extracted text (the
source stores either a JSON wrapper whose `content` field is read
back, or the raw string; the model carries the extracted text
directly).  `enriched_data` is the opaque structured profile
(modelled as `Nat`). -/
structure Company where
  id : Nat
  website : Option String
  email : Option String
  scraped_content : Option String
  enriched_data : Option Nat
  deriving DecidableEq, Repr

/-- The content string `enrichSingleCompany` extracts from
`company.scraped_content` (an absent column reads as `''`). -/
def extractScrapedContent (c : Company) : String :=
  c.scraped_content.getD ""

/-- Batch filter of `enrichCompanyData`: scraped content present,
not yet enriched, email present. -/
def eligibleForEnrichment (c : Company) : Bool :=
  c.scraped_content.isSome && c.enriched_data.isNone && c.email.isSome

/-- `enrichSingleCompany`: refuse when the extracted content is empty
or shorter than 50 characters; otherwise the result is whatever the
language model returned, if it parsed (`modelOutput`). -/
def enrichSingleCompany (c : Company) (modelOutput : Option Nat) : Option Nat :=
  if (extractScrapedContent c).length < 50 then none
  else modelOutput

/-- `getCachedEnrichment` consulted by the batch: keyed by the
website (a missing website is a miss). -/
def getCachedEnrichment (cache : String → Option Nat) (c : Company) : Option Nat :=
  match c.website with
  | none => none
  | some w => cache w

/-- The body of `processBatch` for one company: a cache hit is written
to the company at once (no content check on this path); otherwise a
successful fresh enrichment is written. -/
def processOneCompany (cache : String → Option Nat) (c : Company)
    (modelOutput : Option Nat) : Company :=
  match getCachedEnrichment cache c with
  | some cached => { c with enriched_data := some cached }
  | none =>
    match enrichSingleCompany c modelOutput with
    | some e => { c with enriched_data := some e }
    | none => c

/- ## Derived predicates -/

/-- The invariant claimed of thread states: a set `next_follow_up`
entails a pending conversation with fewer than `m` follow-ups. -/
def followUpInvariant (m : Nat) (t : Thread) : Prop :=
  t.next_follow_up ≠ none →
    t.conversation_status = ConvStatus.pending ∧ t.follow_up_count < m

/-- All fields of a thread other than `follow_up_count`,
`next_follow_up` and `updated_at` agree. -/
def followUpFrame (a b : Thread) : Prop :=
  a.id = b.id ∧ a.subject = b.subject ∧ a.email_content = b.email_content ∧
    a.sent_at = b.sent_at ∧ a.response_received = b.response_received ∧
    a.conversation_status = b.conversation_status ∧ a.campaign_id = b.campaign_id ∧
    a.company_id = b.company_id ∧ a.created_at = b.created_at

/-- JavaScript whitespace removal used to phrase "names differing only
in whitespace". -/
def stripSpaces (s : String) : String :=
  ⟨s.data.filter fun ch => decide (ch ≠ ' ')⟩

/- ## Concrete inputs for witnesses and counterexamples -/

/-- A freshly created thread of some campaign. -/
def exThreadC1 : Thread := newThread 1 "subj" "body" 10 20 0

/-- Initial send, six Gmail-sweep follow-ups, then the aging-out
cleanup once the thread is over six weeks old. -/
def exTraceC1 : List Label :=
  [Label.initialSend true true 100,
   Label.gmailSweep true true 103, Label.gmailSweep true true 106,
   Label.gmailSweep true true 109, Label.gmailSweep true true 112,
   Label.gmailSweep true true 115, Label.gmailSweep true true 118,
   Label.agingCleanup 200]

/-- A thread mid-campaign: sent, pending, one follow-up so far, next
follow-up due. -/
def exThreadW : Thread :=
  { id := 2, subject := "s", email_content := "c", sent_at := some 1
    response_received := false, conversation_status := ConvStatus.pending
    follow_up_count := 1, next_follow_up := some 9
    campaign_id := 1, company_id := 1, created_at := 0, updated_at := 1 }

/-- A thread in the terminal responded state. -/
def exThreadDone : Thread :=
  { id := 3, subject := "s", email_content := "c", sent_at := some 1
    response_received := true, conversation_status := ConvStatus.responded
    follow_up_count := 2, next_follow_up := none
    campaign_id := 1, company_id := 1, created_at := 0, updated_at := 5 }

def exThreadC3 : Thread := newThread 4 "subj" "body" 11 21 0

/-- Initial send then seven Gmail sweeps: the count reaches 7,
beyond the serverless handlers' ceiling of 6. -/
def exTraceC3 : List Label :=
  [Label.initialSend true true 100,
   Label.gmailSweep true true 103, Label.gmailSweep true true 106,
   Label.gmailSweep true true 109, Label.gmailSweep true true 112,
   Label.gmailSweep true true 115, Label.gmailSweep true true 118,
   Label.gmailSweep true true 121]

/-- A sent pending thread that has already received three follow-ups,
with the fourth due. -/
def exThreadC4 : Thread :=
  { id := 5, subject := "s", email_content := "c", sent_at := some 50
    response_received := false, conversation_status := ConvStatus.pending
    follow_up_count := 3, next_follow_up := some 100
    campaign_id := 1, company_id := 2, created_at := 0, updated_at := 90 }

/-- A company eligible for the enrichment batch whose extracted
content is 5 characters long, together with a cache holding a profile
for its website. -/
def exCompanyC8 : Company :=
  { id := 1, website := some "https://x.com", email := some "a@b.c"
    scraped_content := some "short", enriched_data := none }

def exCacheC8 : String → Option Nat :=
  fun w => if w = "https://x.com" then some 42 else none

/-- Two scraped records whose names differ only in case and
whitespace and whose locations are equal, but whose websites differ. -/
def exBusinessA : Business :=
  { name := "Acme Bakery", website := some "a.com", address := some "Austin" }

def exBusinessB : Business :=
  { name := "ACME  BAKERY", website := some "b.com", address := some "Austin" }

/- # Theorems -/

/-- C1 (counterexample): a thread state reachable by the system's own
operations (initial send, six sweeps of `GmailService.processFollowUps`,
then the aging-out cleanup) has `next_follow_up` non-null while
`conversation_status` is `completed` — not `pending` — and
`follow_up_count` equal to the serverless ceiling 6, refuting the
claimed invariant for every choice of the constant MAX. -/
theorem C1_counterexample :
    (run exThreadC1 exTraceC1).next_follow_up = some 121 ∧
      (run exThreadC1 exTraceC1).conversation_status = ConvStatus.completed ∧
      (run exThreadC1 exTraceC1).follow_up_count = 6 := by
  decide

/-- C3 (counterexample): after an initial send and seven Gmail sweeps
a reachable thread carries `follow_up_count = 7`, exceeding the
serverless handlers' ceiling of 6; at the intermediate state with
count 6 the cron sweep's filter already refuses the thread while the
Gmail sweep's filter still accepts it, so the ceiling is not one
uniform system-wide constant. -/
theorem C3_counterexample :
    (run exThreadC3 exTraceC3).follow_up_count = 7 ∧
      cronSweepGuard (run exThreadC3 (exTraceC3.take 7)) 121 = false ∧
      gmailSweepGuard (run exThreadC3 (exTraceC3.take 7)) 121 = true := by
  decide

/-- C4 (counterexample): the Gmail sweep sends the fourth follow-up of
a pending thread (so "from the third follow-up onward") and schedules
the next one 3 days out, not exactly 7 days as claimed. -/
theorem C4_counterexample :
    (applyStep (Label.gmailSweep true true 100) exThreadC4).follow_up_count = 4 ∧
      (applyStep (Label.gmailSweep true true 100) exThreadC4).next_follow_up = some 103 ∧
      (103 : Nat) ≠ 100 + 7 := by
  decide

/-- C5 (counterexample): `GmailService.startCampaign` run over a
single thread whose company has no recipient email ends with zero
successful sends yet reports the campaign `active`, because the status
is set unconditionally before the send loop; the claim requires the
campaign to remain `draft` in this case. -/
theorem C5_counterexample :
    gmailStartCampaign [{ hasEmail := false, sendOk := false }] = ("active", 0) ∧
      ("active" : String) ≠ "draft" := by
  decide

/-- C6 (counterexample): creating a campaign over companies `[1, 2]`
with a failing thread insert leaves the campaign row in the database
with zero threads — exactly the partial state the claim says cannot
remain. -/
theorem C6_counterexample :
    createCampaignHandler [1, 2] false =
        (CreateOutcome.threadInsertFailed,
         { campaign := some { status := "draft", company_count := 2 }, threads := [] }) ∧
      (createCampaignHandler [1, 2] false).2.campaign.isSome = true ∧
      (createCampaignHandler [1, 2] false).2.threads = [] := by
  decide

/-- C8 (counterexample): a company selected by the enrichment batch
whose extracted content has length 5 (< 50) still receives
`enriched_data` through the cached-profile path of `processBatch`,
which performs no content-length check. -/
theorem C8_counterexample :
    eligibleForEnrichment exCompanyC8 = true ∧
      (extractScrapedContent exCompanyC8).length < 50 ∧
      (processOneCompany exCacheC8 exCompanyC8 none).enriched_data = some 42 := by
  decide

/-- C9 (counterexample): two businesses whose names differ only in
case and whitespace and whose locations are equal get different
deduplication keys (the in-memory key combines the normalized name
with the website, not the location), so both survive
`deduplicateBusinesses`; moreover the cache-based duplicate check's
semantic key is whitespace-sensitive. -/
theorem C9_counterexample :
    jsToLower (stripSpaces exBusinessA.name) = jsToLower (stripSpaces exBusinessB.name) ∧
      exBusinessA.address = exBusinessB.address ∧
      dedupKey exBusinessA ≠ dedupKey exBusinessB ∧
      deduplicateBusinesses [exBusinessA, exBusinessB] = [exBusinessA, exBusinessB] ∧
      duplicateCheckSemanticKey "Acme Bakery" "Austin" ≠
        duplicateCheckSemanticKey "Acme  Bakery" "Austin" := by
  decide

/- ## Helper lemmas -/

theorem cronSweepGuard_eq_true_iff (t : Thread) (now : Nat) :
    cronSweepGuard t now = true ↔
      nfDue t now = true ∧ t.conversation_status = ConvStatus.pending ∧
        t.sent_at.isSome = true ∧ t.follow_up_count < 6 := by
  simp [cronSweepGuard, and_assoc]

theorem gmailSweepGuard_eq_true_iff (t : Thread) (now : Nat) :
    gmailSweepGuard t now = true ↔
      t.response_received = false ∧ t.conversation_status = ConvStatus.pending ∧
        nfDue t now = true ∧ t.follow_up_count < 12 := by
  simp [gmailSweepGuard, and_assoc]

theorem manualFollowUpGuard_eq_true_iff (t : Thread) :
    manualFollowUpGuard t = true ↔
      t.conversation_status = ConvStatus.pending ∧ t.follow_up_count < 6 := by
  simp [manualFollowUpGuard]

/-- A thread in the terminal responded state is left untouched by
every operation of the system. -/
theorem respondedState_applyStep_fixed (t : Thread) (h : respondedState t) (l : Label) :
    applyStep l t = t := by
  obtain ⟨hr, hs, hn⟩ := h
  cases l with
  | initialSend ok coin now => simp [applyStep, initialSendGuard, hs]
  | gmailStart ok coin now => simp [applyStep, gmailStartGuard, hs]
  | cronSweep ok coin now => simp [applyStep, cronSweepGuard, hs]
  | gmailSweep ok coin now => simp [applyStep, gmailSweepGuard, hr]
  | manualFollowUp ok coin now => simp [applyStep, manualFollowUpGuard, hs]
  | replyDetect => simp [applyStep, replyGuard, hr]
  | agingCleanup now => simp [applyStep, agingGuard, hs]

/-- A thread in the terminal responded state stays untouched across
any sequence of operations. -/
theorem respondedState_run_fixed (t : Thread) (h : respondedState t) (ls : List Label) :
    run t ls = t := by
  induction ls with
  | nil => rfl
  | cons l ls ih =>
    show run (applyStep l t) ls = t
    rw [respondedState_applyStep_fixed t h l, ih]

/-- One step never decreases the follow-up count and never pushes it
past 12 (the larger of the two ceilings found in the code). -/
theorem applyStep_count_mono (l : Label) (t : Thread) :
    t.follow_up_count ≤ (applyStep l t).follow_up_count ∧
      (applyStep l t).follow_up_count ≤ max t.follow_up_count 12 := by
  cases l with
  | initialSend ok coin now =>
    simp only [applyStep]; split <;> simp
  | gmailStart ok coin now =>
    simp only [applyStep]; split <;> simp
  | cronSweep ok coin now =>
    simp only [applyStep]
    split
    · next h =>
      rw [Bool.and_eq_true] at h
      have h6 : t.follow_up_count < 6 :=
        ((cronSweepGuard_eq_true_iff t now).1 h.2).2.2.2
      simp [followUpUpdate]
      omega
    · simp
  | gmailSweep ok coin now =>
    simp only [applyStep]
    split
    · next h =>
      rw [Bool.and_eq_true] at h
      have h12 : t.follow_up_count < 12 :=
        ((gmailSweepGuard_eq_true_iff t now).1 h.2).2.2.2
      simp [followUpUpdate]
      omega
    · simp
  | manualFollowUp ok coin now =>
    simp only [applyStep]
    split
    · next h =>
      rw [Bool.and_eq_true] at h
      have h6 : t.follow_up_count < 6 :=
        ((manualFollowUpGuard_eq_true_iff t).1 h.2).2
      simp [followUpUpdate]
      omega
    · simp
  | replyDetect =>
    simp only [applyStep]; split <;> simp
  | agingCleanup now =>
    simp only [applyStep]; split <;> simp

/- ## Claim theorems for the state machine -/

/-- C1 (amended): the implication `next_follow_up != null →
conversation_status = pending ∧ follow_up_count < ceiling` holds
locally after each follow-up path's own update, with that path's own
ceiling — 6 for the cron sweep and the manual follow-up endpoint, 12
for the GmailService sweep — and reply detection always leaves
`next_follow_up` null or untouched; it is not one global invariant
with a single MAX. -/
theorem C1_amended :
    (∀ (t : Thread) (coin : Bool) (now : Nat), cronSweepGuard t now = true →
        followUpInvariant 6 (applyStep (Label.cronSweep true coin now) t)) ∧
      (∀ (t : Thread) (coin : Bool) (now : Nat), manualFollowUpGuard t = true →
        followUpInvariant 6 (applyStep (Label.manualFollowUp true coin now) t)) ∧
      (∀ (t : Thread) (coin : Bool) (now : Nat), gmailSweepGuard t now = true →
        followUpInvariant 12 (applyStep (Label.gmailSweep true coin now) t)) ∧
      (∀ (t : Thread) (msg : String),
        (processIncomingEmail t msg).1.next_follow_up = none ∨
          (processIncomingEmail t msg).1.next_follow_up = t.next_follow_up) := by
  refine ⟨?_, ?_, ?_, ?_⟩
  · intro t coin now h
    rw [cronSweepGuard_eq_true_iff] at h
    simp only [applyStep, h.2.1, Bool.true_and,
      (cronSweepGuard_eq_true_iff t now).2 ⟨h.1, h.2.1, h.2.2.1, h.2.2.2⟩, if_true]
    intro hnf
    simp only [followUpUpdate, calculateNextFollowUp] at hnf ⊢
    refine ⟨h.2.1, ?_⟩
    by_cases hk : t.follow_up_count + 1 ≥ 6
    · simp [hk] at hnf
    · omega
  · intro t coin now h
    rw [manualFollowUpGuard_eq_true_iff] at h
    simp only [applyStep, Bool.true_and,
      (manualFollowUpGuard_eq_true_iff t).2 ⟨h.1, h.2⟩, if_true]
    intro hnf
    simp only [followUpUpdate, calculateNextFollowUp] at hnf ⊢
    refine ⟨h.1, ?_⟩
    by_cases hk : t.follow_up_count + 1 ≥ 6
    · simp [hk] at hnf
    · omega
  · intro t coin now h
    rw [gmailSweepGuard_eq_true_iff] at h
    simp only [applyStep, Bool.true_and,
      (gmailSweepGuard_eq_true_iff t now).2 ⟨h.1, h.2.1, h.2.2.1, h.2.2.2⟩, if_true]
    intro hnf
    simp only [followUpUpdate] at hnf ⊢
    refine ⟨h.2.1, ?_⟩
    by_cases hk : t.follow_up_count < 11
    · omega
    · simp [hk] at hnf
  · intro t msg
    by_cases h : replyGuard t = true
    · left; simp [processIncomingEmail, h]
    · right; simp [processIncomingEmail, h]

/-- Witness for `C1_amended` at a concrete due pending thread. -/
theorem C1_amended_witness :
    cronSweepGuard exThreadW 10 = true ∧
      followUpInvariant 6 (applyStep (Label.cronSweep true true 10) exThreadW) :=
  ⟨by decide, C1_amended.1 exThreadW true 10 (by decide)⟩

/-- C2 (confirmed): reply detection on a thread still marked
unanswered sets `response_received`, `conversation_status = responded`
and `next_follow_up = null` in its single update and appends exactly
one `conversations` row with `sender = 'prospect'`; afterwards the
thread is a fixed point of every operation (in particular it is
excluded from every follow-up scan and never has `next_follow_up`
set again), and no automated follow-up is ever sent for it. -/
theorem C2_reply_terminal :
    (∀ (t : Thread) (msg : String), t.response_received = false →
        respondedState (processIncomingEmail t msg).1 ∧
          (processIncomingEmail t msg).2 =
            [{ thread_id := t.id, message_content := msg, sender := "prospect" }]) ∧
      (∀ (t : Thread) (l : Label), respondedState t → applyStep l t = t) ∧
      (∀ (t : Thread) (ls : List Label), respondedState t → run t ls = t) ∧
      (∀ (t : Thread) (l : Label), respondedState t → sendsFollowUp l t = false) := by
  refine ⟨?_, ?_, ?_, ?_⟩
  · intro t msg h
    constructor
    · simp [processIncomingEmail, replyGuard, h, respondedState]
    · simp [processIncomingEmail, replyGuard, h]
  · exact fun t l h => respondedState_applyStep_fixed t h l
  · exact fun t ls h => respondedState_run_fixed t h ls
  · intro t l h
    obtain ⟨hr, hs, hn⟩ := h
    cases l with
    | cronSweep ok coin now => simp [sendsFollowUp, cronSweepGuard, hs]
    | gmailSweep ok coin now => simp [sendsFollowUp, gmailSweepGuard, hr]
    | manualFollowUp ok coin now => simp [sendsFollowUp, manualFollowUpGuard, hs]
    | initialSend ok coin now => simp [sendsFollowUp]
    | gmailStart ok coin now => simp [sendsFollowUp]
    | replyDetect => simp [sendsFollowUp]
    | agingCleanup now => simp [sendsFollowUp]

/-- Witness for `C2_reply_terminal`: a concrete unanswered thread and
a concrete responded thread. -/
theorem C2_reply_terminal_witness :
    (respondedState (processIncomingEmail exThreadW "thanks").1 ∧
        (processIncomingEmail exThreadW "thanks").2 =
          [{ thread_id := 2, message_content := "thanks", sender := "prospect" }]) ∧
      applyStep (Label.cronSweep true true 50) exThreadDone = exThreadDone ∧
      sendsFollowUp (Label.gmailSweep true true 50) exThreadDone = false :=
  ⟨C2_reply_terminal.1 exThreadW "thanks" rfl,
   C2_reply_terminal.2.1 exThreadDone (Label.cronSweep true true 50) (by decide),
   C2_reply_terminal.2.2.2 exThreadDone (Label.gmailSweep true true 50) (by decide)⟩

/-- C3 (amended): across any sequence of operations a thread's
`follow_up_count` never decreases and never exceeds 12 (the larger of
the two ceilings found in the code); the ceiling is not a single
uniform constant — the serverless paths enforce 6 while the
GmailService sweep enforces 12 (see the counterexample). -/
theorem C3_amended :
    ∀ (t : Thread) (ls : List Label),
      t.follow_up_count ≤ (run t ls).follow_up_count ∧
        (run t ls).follow_up_count ≤ max t.follow_up_count 12 := by
  intro t ls
  induction ls generalizing t with
  | nil => simp [run]
  | cons l ls ih =>
    have hstep := applyStep_count_mono l t
    have htail := ih (applyStep l t)
    have hrun : run t (l :: ls) = run (applyStep l t) ls := rfl
    rw [hrun]
    omega

/-- C4 (amended): the `calculateNextFollowUp(count)` helper shared by
the cron and manual follow-up paths schedules 3 or 4 days out after
the first two follow-ups, exactly 7 days out from the third to the
fifth, and nothing once the count reaches 6; the GmailService sweep
does not use this policy (see the counterexample). -/
theorem C4_amended :
    ∀ (k : Nat) (coin : Bool) (now : Nat),
      (1 ≤ k → k ≤ 2 →
        calculateNextFollowUp k coin now = some (now + 3) ∨
          calculateNextFollowUp k coin now = some (now + 4)) ∧
        (3 ≤ k → k < 6 → calculateNextFollowUp k coin now = some (now + 7)) ∧
        (6 ≤ k → calculateNextFollowUp k coin now = none) := by
  intro k coin now
  refine ⟨?_, ?_, ?_⟩
  · intro h1 h2
    cases coin <;> simp [calculateNextFollowUp] <;> omega
  · intro h3 h6
    have hk2 : ¬ k ≤ 2 := by omega
    have hk6 : ¬ k ≥ 6 := by omega
    simp [calculateNextFollowUp, hk2, hk6]
  · intro h6
    simp [calculateNextFollowUp, h6]

/-- Witness for `C4_amended` at counts 1, 4 and 6. -/
theorem C4_amended_witness :
    (calculateNextFollowUp 1 true 10 = some 13 ∨
        calculateNextFollowUp 1 true 10 = some 14) ∧
      calculateNextFollowUp 4 true 10 = some 17 ∧
      calculateNextFollowUp 6 true 10 = none :=
  ⟨(C4_amended 1 true 10).1 (by decide) (by decide),
   (C4_amended 4 true 10).2.1 (by decide) (by decide),
   (C4_amended 6 true 10).2.2 (by decide)⟩

/-- C10 (confirmed): every follow-up send path (cron sweep,
GmailService sweep, manual follow-up) changes at most
`follow_up_count`, `next_follow_up` and `updated_at`; all other
fields of the thread row are untouched whether or not the send
happens. -/
theorem C10_followup_frame :
    ∀ (t : Thread) (ok coin : Bool) (now : Nat),
      followUpFrame t (applyStep (Label.cronSweep ok coin now) t) ∧
        followUpFrame t (applyStep (Label.gmailSweep ok coin now) t) ∧
        followUpFrame t (applyStep (Label.manualFollowUp ok coin now) t) := by
  intro t ok coin now
  refine ⟨?_, ?_, ?_⟩ <;>
    · simp only [applyStep]
      split <;> simp [followUpFrame, followUpUpdate]

/- ## Claim theorems for campaign start and creation -/

/-- C5 (amended): the `api/campaigns/start.ts` handler records exactly
one outcome per pending unsent thread, records a missing-recipient
failure for a thread whose company has no email without aborting the
run, and ends the campaign `active` precisely when at least one thread
was sent, `draft` otherwise; `GmailService.startCampaign` instead
marks the campaign `active` unconditionally before sending (see the
counterexample). -/
theorem C5_amended :
    ∀ (items : List SendItem),
      (startResults items).length = items.length ∧
        (∀ (i : Nat) (it : SendItem), items[i]? = some it → it.hasEmail = false →
          (startResults items)[i]? = some SendOutcome.noEmail) ∧
        (startFinalStatus items = "active" ↔ 0 < startSentCount items) ∧
        (startFinalStatus items = "draft" ↔ startSentCount items = 0) := by
  intro items
  refine ⟨?_, ?_, ?_, ?_⟩
  · simp [startResults]
  · intro i it hget hmail
    simp [startResults, List.getElem?_map, hget, startOutcome, hmail]
  · unfold startFinalStatus
    split
    · next h => simpa using h
    · next h =>
      constructor
      · intro hab; exact absurd hab (by decide)
      · intro hpos; omega
  · unfold startFinalStatus
    split
    · next h =>
      constructor
      · intro hab; exact absurd hab (by decide)
      · intro hz; omega
    · next h => simp; omega

/-- Witness for `C5_amended`: one thread with no recipient email, one
that sends. -/
theorem C5_amended_witness :
    (startResults [⟨false, false⟩, ⟨true, true⟩])[0]? = some SendOutcome.noEmail ∧
      (startFinalStatus [⟨false, false⟩, ⟨true, true⟩] = "active" ↔
        0 < startSentCount [⟨false, false⟩, ⟨true, true⟩]) :=
  ⟨(C5_amended [⟨false, false⟩, ⟨true, true⟩]).2.1 0 ⟨false, false⟩ rfl rfl,
   (C5_amended [⟨false, false⟩, ⟨true, true⟩]).2.2.1⟩

/-- C6 (amended): campaign creation fails with `NoEligibleCompanies`
exactly when the resolved company-id list is empty, and otherwise
inserts one draft campaign row and then one pending thread row with
`follow_up_count = 0` per company id; the two inserts are not atomic —
when the thread insert fails the campaign row remains with no threads
(see the counterexample). -/
theorem C6_amended :
    ∀ (ids : List Nat) (ok : Bool),
      ((createCampaignHandler ids ok).1 = CreateOutcome.noEligibleCompanies ↔ ids = []) ∧
        (ids ≠ [] → ok = true →
          createCampaignHandler ids ok =
            (CreateOutcome.created,
             { campaign := some { status := "draft", company_count := ids.length }
               threads := ids.map fun cid =>
                 { company_id := cid
                   conversation_status := ConvStatus.pending
                   follow_up_count := 0 } })) ∧
        (ids ≠ [] → ok = false →
          createCampaignHandler ids ok =
            (CreateOutcome.threadInsertFailed,
             { campaign := some { status := "draft", company_count := ids.length }
               threads := [] })) := by
  intro ids ok
  refine ⟨?_, ?_, ?_⟩
  · unfold createCampaignHandler
    by_cases h : ids.length = 0
    · simp [h, List.length_eq_zero.1 h]
    · have : ids ≠ [] := by
        intro hnil; exact h (by simp [hnil])
      cases ok <;> simp [h, this]
  · intro hne hok
    have h : ¬ ids.length = 0 := by
      intro h0; exact hne (List.length_eq_zero.1 h0)
    subst hok
    simp [createCampaignHandler, h]
  · intro hne hok
    have h : ¬ ids.length = 0 := by
      intro h0; exact hne (List.length_eq_zero.1 h0)
    subst hok
    simp [createCampaignHandler, h]

/-- Witness for `C6_amended`: creating over companies `[7]`
succeeds with one pending thread. -/
theorem C6_amended_witness :
    createCampaignHandler [7] true =
      (CreateOutcome.created,
       { campaign := some { status := "draft", company_count := 1 }
         threads := [{ company_id := 7
                       conversation_status := ConvStatus.pending
                       follow_up_count := 0 }] }) :=
  (C6_amended [7] true).2.1 (by decide) rfl

/- ## Claim theorem for the cache store -/

/-- C7 (confirmed): `getCachedData` returns the stored payload exactly
when an unexpired entry exists under the key/category pair; an expired
entry is deleted and a miss returned; a read error yields a miss with
the store untouched, a write error makes `setCachedData` a no-op, and
a successful `setCachedData` upserts the payload with
`expires_at = now + ttl` — no cache failure is ever propagated. -/
theorem C7_cache_get_set :
    (∀ (s : CacheStore) (key ctype : String) (now p : Nat),
        (getCachedData s key ctype now false).1 = some p ↔
          ∃ e, s key ctype = some (p, e) ∧ now ≤ e) ∧
      (∀ (s : CacheStore) (key ctype : String) (now p e : Nat),
        s key ctype = some (p, e) → e < now →
          (getCachedData s key ctype now false).1 = none ∧
            (getCachedData s key ctype now false).2 key ctype = none) ∧
      (∀ (s : CacheStore) (key ctype : String) (now : Nat),
        getCachedData s key ctype now true = (none, s)) ∧
      (∀ (s : CacheStore) (key ctype : String) (payload d now : Nat),
        setCachedData s key ctype payload d now true = s) ∧
      (∀ (s : CacheStore) (key ctype : String) (payload d now : Nat),
        setCachedData s key ctype payload d now false key ctype =
          some (payload, now + d)) := by
  refine ⟨?_, ?_, ?_, ?_, ?_⟩
  · intro s key ctype now p
    unfold getCachedData
    simp only [Bool.false_eq_true, if_false]
    cases h : s key ctype with
    | none => simp [h]
    | some pe =>
      obtain ⟨p1, e1⟩ := pe
      by_cases hexp : now > e1
      · simp only [hexp, if_true]
        constructor
        · intro hc; exact absurd hc (by simp)
        · rintro ⟨e2, he2, hle⟩
          simp only [Option.some.injEq, Prod.mk.injEq] at he2
          omega
      · simp only [hexp, if_false]
        constructor
        · intro hc
          simp only [Option.some.injEq] at hc
          exact ⟨e1, by simp [h, hc], by omega⟩
        · rintro ⟨e2, he2, hle⟩
          simp only [Option.some.injEq, Prod.mk.injEq] at he2
          simp [he2.1]
  · intro s key ctype now p e hfound hexp
    unfold getCachedData
    simp [hfound, Nat.lt_iff_add_one_le.1 hexp, show now > e from hexp]
  · intro s key ctype now
    simp [getCachedData]
  · intro s key ctype payload d now
    simp [setCachedData]
  · intro s key ctype payload d now
    simp [setCachedData]

/-- Witness for `C7_cache_get_set`: a concrete one-entry store hit
before expiry and missed (and deleted) after. -/
theorem C7_cache_get_set_witness :
    ((getCachedData
        (fun k c => if k = "h" ∧ c = "business_data" then some (5, 30) else none)
        "h" "business_data" 10 false).1 = some 5 ∧
      (getCachedData
        (fun k c => if k = "h" ∧ c = "business_data" then some (5, 30) else none)
        "h" "business_data" 40 false).2 "h" "business_data" = none) :=
  ⟨((C7_cache_get_set.1
      (fun k c => if k = "h" ∧ c = "business_data" then some (5, 30) else none)
      "h" "business_data" 10 5).2 ⟨30, by simp, by omega⟩),
   ((C7_cache_get_set.2.1
      (fun k c => if k = "h" ∧ c = "business_data" then some (5, 30) else none)
      "h" "business_data" 40 5 30 (by simp) (by omega)).2)⟩

/- ## Claim theorem for enrichment gating -/

/-- C8 (amended): the fresh enrichment path refuses any company whose
extracted content is shorter than 50 characters, so `enriched_data`
changes only when the enrichment cache hits or the content is at least
50 characters long; the cached path itself performs no length check
(see the counterexample). -/
theorem C8_amended :
    ∀ (cache : String → Option Nat) (c : Company) (modelOutput : Option Nat),
      (enrichSingleCompany c modelOutput ≠ none →
          50 ≤ (extractScrapedContent c).length) ∧
        ((processOneCompany cache c modelOutput).enriched_data ≠ c.enriched_data →
          getCachedEnrichment cache c ≠ none ∨
            50 ≤ (extractScrapedContent c).length) := by
  intro cache c modelOutput
  constructor
  · intro hne
    unfold enrichSingleCompany at hne
    by_cases hlen : (extractScrapedContent c).length < 50
    · simp [hlen] at hne
    · omega
  · intro hch
    unfold processOneCompany at hch
    cases hc : getCachedEnrichment cache c with
    | some v => exact Or.inl (by simp [hc])
    | none =>
      rw [hc] at hch
      cases he : enrichSingleCompany c modelOutput with
      | none => rw [he] at hch; simp at hch
      | some v =>
        right
        unfold enrichSingleCompany at he
        by_cases hlen : (extractScrapedContent c).length < 50
        · simp [hlen] at he
        · omega

/-- Witness for `C8_amended`: a company with 50 characters of content
enriched fresh. -/
theorem C8_amended_witness :
    enrichSingleCompany
        { id := 2, website := none, email := some "a@b.c"
          scraped_content := some "01234567890123456789012345678901234567890123456789"
          enriched_data := none } (some 7) ≠ none ∧
      50 ≤ (extractScrapedContent
        { id := 2, website := none, email := some "a@b.c"
          scraped_content := some "01234567890123456789012345678901234567890123456789"
          enriched_data := none }).length :=
  ⟨by decide,
   (C8_amended (fun _ => none)
      { id := 2, website := none, email := some "a@b.c"
        scraped_content := some "01234567890123456789012345678901234567890123456789"
        enriched_data := none } (some 7)).1 (by decide)⟩

/- ## Claim theorem for the deduplicator -/

/-- Filtering to lowercase alphanumerics commutes with first dropping
spaces, because a space is never produced by lowercasing and never
kept by the alphanumeric filter. -/
theorem filter_alnum_map_toLower_stripSpaces (l : List Char) :
    ((l.filter fun ch => decide (ch ≠ ' ')).map Char.toLower).filter
        (fun ch => ch.isLower || ch.isDigit)
      = (l.map Char.toLower).filter (fun ch => ch.isLower || ch.isDigit) := by
  induction l with
  | nil => rfl
  | cons c l ih =>
    by_cases hc : c = ' '
    · subst hc
      have h1 : (decide ((' ' : Char) ≠ ' ')) = false := by decide
      have h2 : (((' ' : Char).toLower.isLower || (' ' : Char).toLower.isDigit)) = false := by
        decide
      rw [List.filter_cons, List.map_cons, List.filter_cons, h1, h2]
      simpa using ih
    · have h1 : (decide (c ≠ ' ')) = true := by simp [hc]
      rw [List.filter_cons, h1]
      simp only [if_true]
      rw [List.map_cons, List.map_cons, List.filter_cons, List.filter_cons]
      by_cases hp : (c.toLower.isLower || c.toLower.isDigit) = true
      · rw [hp]
        simp only [if_true, ih]
      · have hp' : ((c.toLower.isLower || c.toLower.isDigit)) = false :=
          Bool.eq_false_iff.2 hp
        rw [hp']
        simpa using ih

/-- The dedup normalization may equivalently strip spaces first. -/
theorem normalizeBusinessName_eq (s : String) :
    normalizeBusinessName s =
      ⟨((stripSpaces s).data.map Char.toLower).filter fun ch => ch.isLower || ch.isDigit⟩ := by
  unfold normalizeBusinessName stripSpaces
  exact congrArg String.mk (filter_alnum_map_toLower_stripSpaces s.data).symm

/-- Lowercasing distributes over string concatenation. -/
theorem jsToLower_append (a b : String) :
    jsToLower (a ++ b) = jsToLower a ++ jsToLower b := by
  unfold jsToLower
  cases a with
  | mk da =>
    cases b with
    | mk db =>
      show String.mk _ = String.mk _ ++ String.mk _
      rw [show String.mk (List.map Char.toLower da) ++ String.mk (List.map Char.toLower db)
            = String.mk (List.map Char.toLower da ++ List.map Char.toLower db) from rfl]
      rw [show (String.mk da ++ String.mk db) = String.mk (da ++ db) from rfl]
      rw [List.map_append]

/-- C9 (amended): both identity functions are pure and deterministic,
but neither is keyed on (name, location) as claimed.  The in-memory
key of `deduplicateBusinesses` is insensitive to case and whitespace
in the name (names equal after lowercasing and space removal always
normalize alike), is determined by the normalized name together with
the *website*, and ignores the address entirely; the cache-based
duplicate check's semantic key is a case-insensitive function of
(name, location) but keeps whitespace and punctuation (see the
counterexample). -/
theorem C9_amended :
    (∀ n1 n2 : String, jsToLower (stripSpaces n1) = jsToLower (stripSpaces n2) →
        normalizeBusinessName n1 = normalizeBusinessName n2) ∧
      (∀ b1 b2 : Business, normalizeBusinessName b1.name = normalizeBusinessName b2.name →
        b1.website = b2.website → dedupKey b1 = dedupKey b2) ∧
      (∀ (name : String) (w a1 a2 : Option String),
        dedupKey { name := name, website := w, address := a1 } =
          dedupKey { name := name, website := w, address := a2 }) ∧
      (∀ n1 n2 l1 l2 : String, jsToLower n1 = jsToLower n2 → jsToLower l1 = jsToLower l2 →
        duplicateCheckSemanticKey n1 l1 = duplicateCheckSemanticKey n2 l2) := by
  refine ⟨?_, ?_, ?_, ?_⟩
  · intro n1 n2 h
    rw [normalizeBusinessName_eq, normalizeBusinessName_eq]
    have hd : (stripSpaces n1).data.map Char.toLower
        = (stripSpaces n2).data.map Char.toLower := by
      have := congrArg String.data h
      simpa [jsToLower] using this
    exact congrArg (fun l => String.mk (l.filter fun ch => ch.isLower || ch.isDigit)) hd
  · intro b1 b2 hn hw
    unfold dedupKey
    rw [hn, hw]
  · intro name w a1 a2
    rfl
  · intro n1 n2 l1 l2 hn hl
    unfold duplicateCheckSemanticKey
    rw [jsToLower_append, jsToLower_append, jsToLower_append, jsToLower_append,
      jsToLower_append, jsToLower_append, hn, hl]

/-- Witness for `C9_amended`: equal keys across a case/whitespace
variation of the same name. -/
theorem C9_amended_witness :
    normalizeBusinessName "Cafe X" = normalizeBusinessName "CAFE  X" ∧
      dedupKey { name := "Cafe X", website := some "c.com", address := some "A" } =
        dedupKey { name := "CAFE  X", website := some "c.com", address := some "B" } :=
  ⟨C9_amended.1 "Cafe X" "CAFE  X" (by decide),
   C9_amended.2.1
     { name := "Cafe X", website := some "c.com", address := some "A" }
     { name := "CAFE  X", website := some "c.com", address := some "B" }
     (by decide) rfl⟩

end Email7
